import Mathlib

/-!
Verification development for the face/voice biometric verification engine
(`frontend/face_voice_verification`): shallow embedding of the decision
fusion, attestation signing (Keccak-256 message hashing, hex handling,
signature fallbacks), blink debouncing, lip-sync gating and DTW alignment,
together with theorems settling the specification's claims.
-/

/-! ## Keccak-256 (as used by `eth_utils.keccak` in `utils.py`)

Bytes are `Nat` values below `256`; 64-bit lanes are `Nat` values below
`2^64`, with wrap-around made explicit through masking. -/

/-- The 64-bit all-ones mask. -/
def mask64 : Nat := 0xFFFFFFFFFFFFFFFF

/-- Left rotation of a 64-bit lane by `n` bits (`n ≤ 64`). -/
def rotl64 (x n : Nat) : Nat :=
  ((x <<< n) ||| (x >>> (64 - n))) &&& mask64

/-- Keccak round constants for the 24 rounds of Keccak-f[1600]. -/
def keccakRC : List Nat :=
  [0x0000000000000001, 0x0000000000008082, 0x800000000000808a, 0x8000000080008000,
   0x000000000000808b, 0x0000000080000001, 0x8000000080008081, 0x8000000000008009,
   0x000000000000008a, 0x0000000000000088, 0x0000000080008009, 0x000000008000000a,
   0x000000008000808b, 0x800000000000008b, 0x8000000000008089, 0x8000000000008003,
   0x8000000000008002, 0x8000000000000080, 0x000000000000800a, 0x800000008000000a,
   0x8000000080008081, 0x8000000000008080, 0x0000000080000001, 0x8000000080008008]

/-- Rotation offsets `r[x,y]` of the ρ step: row `y` holds the offsets for
`x = 0..4`, and the flattened table is indexed at `x + 5*y`. -/
def keccakRotRows : List (List Nat) :=
  [[0, 1, 62, 28, 27],
   [36, 44, 6, 55, 20],
   [3, 10, 43, 25, 39],
   [41, 45, 15, 21, 8],
   [18, 2, 61, 56, 14]]

/-- The flattened ρ offset table. -/
def keccakRot : List Nat :=
  keccakRotRows.flatten

/-- Lane `A[x,y]` of a 25-lane state stored flat at index `x + 5*y`. -/
def laneAt (st : List Nat) (x y : Nat) : Nat := st.getD (x + 5 * y) 0

/-- The θ step of a Keccak-f round. -/
def keccakTheta (st : List Nat) : List Nat :=
  let c := (List.range 5).map fun x => laneAt st x 0 ^^^ laneAt st x 1 ^^^ laneAt st x 2 ^^^
    laneAt st x 3 ^^^ laneAt st x 4
  let d := (List.range 5).map fun x =>
    c.getD ((x + 4) % 5) 0 ^^^ rotl64 (c.getD ((x + 1) % 5) 0) 1
  (List.range 25).map fun i => st.getD i 0 ^^^ d.getD (i % 5) 0

/-- The combined ρ and π steps: `B[y, (2x+3y) % 5] = rotl(A[x,y], r[x,y])`,
written through the inverse index map. -/
def keccakRhoPi (st : List Nat) : List Nat :=
  (List.range 25).map fun i =>
    let xp := i % 5
    let yp := i / 5
    let x := (3 * ((yp + 15 - 3 * xp) % 5)) % 5
    let y := xp
    rotl64 (laneAt st x y) (keccakRot.getD (x + 5 * y) 0)

/-- The χ step: `A[x,y] = B[x,y] xor ((not B[x+1,y]) and B[x+2,y])`. -/
def keccakChi (st : List Nat) : List Nat :=
  (List.range 25).map fun i =>
    let x := i % 5
    let y := i / 5
    laneAt st x y ^^^ ((laneAt st ((x + 1) % 5) y ^^^ mask64) &&& laneAt st ((x + 2) % 5) y)

/-- The ι step xors the round constant into lane `A[0,0]`. -/
def keccakIota (st : List Nat) (rc : Nat) : List Nat :=
  match st with
  | [] => []
  | a :: rest => (a ^^^ rc) :: rest

/-- One round of Keccak-f[1600]. -/
def keccakRound (st : List Nat) (rc : Nat) : List Nat :=
  keccakIota (keccakChi (keccakRhoPi (keccakTheta st))) rc

/-- The full 24-round Keccak-f[1600] permutation. -/
def keccakF (st : List Nat) : List Nat :=
  keccakRC.foldl keccakRound st

/-- Assemble the 17 rate lanes of a 136-byte block, little-endian per lane. -/
def lanesOfBlock (block : List Nat) : List Nat :=
  (List.range 17).map fun i =>
    (List.range 8).foldr (fun j acc => block.getD (8 * i + j) 0 + 256 * acc) 0

/-- Xor a 136-byte rate block into the state. -/
def xorIntoState (st block : List Nat) : List Nat :=
  let lanes := lanesOfBlock block
  (List.range 25).map fun i => st.getD i 0 ^^^ lanes.getD i 0

/-- Absorb `k` rate blocks of a padded message, block by block. -/
def absorbBlocks : Nat → List Nat → List Nat → List Nat
  | 0, st, _ => st
  | k + 1, st, msg => absorbBlocks k (keccakF (xorIntoState st (msg.take 136))) (msg.drop 136)

/-- Extract the first `n` output bytes of the state, little-endian per lane. -/
def lanesToBytes (st : List Nat) (n : Nat) : List Nat :=
  (List.range n).map fun i => (st.getD (i / 8) 0 >>> (8 * (i % 8))) &&& 255

/-- Keccak-256 of a byte string: rate 136, original Keccak multi-rate padding
(`0x01 … 0x80`), 32 output bytes.  This is the `keccak` of `eth_utils` used by
`CryptoUtils.generate_ethereum_signature` in `utils.py`. -/
def keccak256 (input : List Nat) : List Nat :=
  let m := input.length % 136
  let pad := if 136 - m = 1 then [0x81] else 0x01 :: (List.replicate (136 - m - 2) 0 ++ [0x80])
  let padded := input ++ pad
  lanesToBytes (absorbBlocks (padded.length / 136) (List.replicate 25 0) padded) 32

set_option maxRecDepth 8192

/-! ## Hex strings and `CryptoUtils.generate_ethereum_signature` (`utils.py` 81-137)

Python strings are embedded as `List Char`, byte strings as `List Nat`.
The fallible external primitives (secp256k1 ECDSA signing via `eth_account`,
`hashlib.sha256` hex digests) are supplied through a `SignEnv` record; their
documented output shapes (65 signature bytes, 64 hex characters) appear as
hypotheses of the theorems that need them. -/

/-- Value of one hex digit, as accepted by Python's `bytes.fromhex`. -/
def hexVal (c : Char) : Option Nat :=
  if '0' ≤ c ∧ c ≤ '9' then some (c.toNat - '0'.toNat)
  else if 'a' ≤ c ∧ c ≤ 'f' then some (c.toNat - 'a'.toNat + 10)
  else if 'A' ≤ c ∧ c ≤ 'F' then some (c.toNat - 'A'.toNat + 10)
  else none

/-- Python `bytes.fromhex`: pairs of hex digits to bytes, failing on a
non-hex character or an odd number of digits. -/
def bytesFromHex : List Char → Option (List Nat)
  | [] => some []
  | [_] => none
  | c1 :: c2 :: rest =>
    match hexVal c1, hexVal c2, bytesFromHex rest with
    | some hi, some lo, some bs => some ((16 * hi + lo) :: bs)
    | _, _, _ => none

/-- Lowercase hex digit character, as produced by `bytes.hex()`. -/
def hexDigitChar (n : Nat) : Char :=
  if n < 10 then Char.ofNat ('0'.toNat + n) else Char.ofNat ('a'.toNat + n - 10)

/-- Two hex characters of one byte. -/
def byteToHexChars (b : Nat) : List Char :=
  [hexDigitChar (b / 16), hexDigitChar (b % 16)]

/-- The `0x`-prefixed lowercase hex rendering of a byte string, as produced by
`HexBytes.hex()` on an `eth_account` signature. -/
def bytesToHex0x (bs : List Nat) : List Char :=
  '0' :: 'x' :: (bs.map byteToHexChars).flatten

/-- Python `str.ljust(width, c)`. -/
def ljustChars (s : List Char) (width : Nat) (c : Char) : List Char :=
  if s.length < width then s ++ List.replicate (width - s.length) c else s

/-- Python `str.rjust(width, c)`. -/
def rjustChars (s : List Char) (width : Nat) (c : Char) : List Char :=
  if s.length < width then List.replicate (width - s.length) c ++ s else s

/-- Python `bytes.rjust(width, b"\x00")`. -/
def rjustBytes (bs : List Nat) (width : Nat) : List Nat :=
  if bs.length < width then List.replicate (width - bs.length) 0 ++ bs else bs

/-- Lines 86-87 and 94-95 of `utils.py`: prepend `0x` unless already present. -/
def ensure0x (s : List Char) : List Char :=
  if s.take 2 = ['0', 'x'] then s else '0' :: 'x' :: s

/-- Lines 86-91 of `utils.py`: `0x`-prefix the biometric hash and, when it is
shorter than 66 characters, right-pad it with ASCII `0` to 66 characters. -/
def normalizeBiometricHash (h : List Char) : List Char :=
  let h1 := ensure0x h
  if h1.length < 66 then ljustChars h1 66 '0' else h1

/-- Line 101 of `utils.py`: hex digits of the address used by `bytes.fromhex`. -/
def addressHexDigits (user_address : List Char) : List Char :=
  rjustChars ((ensure0x user_address).drop 2) 40 '0'

/-- Line 102 of `utils.py`: hex digits of the digest used by `bytes.fromhex`. -/
def digestHexDigits (biometric_hash : List Char) : List Char :=
  rjustChars ((normalizeBiometricHash biometric_hash).drop 2) 64 '0'

/-- Lines 100-108 of `utils.py`: the byte buffer that is hashed, namely the
address bytes right-justified to 32 bytes with zero bytes followed by the
digest bytes; `none` when either `bytes.fromhex` raises. -/
def messageInput (biometric_hash user_address : List Char) : Option (List Nat) :=
  match bytesFromHex (addressHexDigits user_address),
        bytesFromHex (digestHexDigits biometric_hash) with
  | some addrBytes, some hashBytes => some (rjustBytes addrBytes 32 ++ hashBytes)
  | _, _ => none

/-- Lines 105-108 of `utils.py`: `message_hash = keccak(...)`. -/
def messageHash (biometric_hash user_address : List Char) : Option (List Nat) :=
  (messageInput biometric_hash user_address).map keccak256

/-- Modelled from the spec: the external verifier, which is not part of this
repository, recomputes `ethers.utils.solidityKeccak256(["address", "bytes32"],
[userAddress, faceHash])` (the Node.js snippet documented in
`test_ethereum_signatures.py`), namely Keccak-256 of the tightly packed
encoding: the 20 address bytes followed directly by the 32 digest bytes. -/
def solidityKeccakAddressBytes32 (addrBytes digestBytes : List Nat) : List Nat :=
  keccak256 (addrBytes ++ digestBytes)

/-- Outcomes of the external cryptographic primitives: whether
`Account.from_key` accepts the backend key, the secp256k1 ECDSA signature
bytes for a message, and `hashlib.sha256(...).hexdigest()`. -/
structure SignEnv where
  keyValid : Bool
  ecdsaSign : List Nat → List Nat
  sha256hex : List Char → List Char

/-- Lines 123-137 of `utils.py` (`CryptoUtils.sign_data_simple`): sign the
EIP-191 encoding of the text `f"{data}.{wallet_address}"`; if the key cannot
be loaded, fall back to `"0x" + sha256(f"{data}{wallet_address}").hexdigest()`. -/
def sign_data_simple (env : SignEnv) (data wallet_address : List Char) : List Char :=
  if env.keyValid then
    bytesToHex0x (env.ecdsaSign ((data ++ '.' :: wallet_address).map Char.toNat))
  else
    '0' :: 'x' :: env.sha256hex (data ++ wallet_address)

/-- Lines 81-121 of `utils.py` (`CryptoUtils.generate_ethereum_signature`):
hash the padded (address, digest) buffer with Keccak-256 and sign the raw
hash; if hex parsing or key loading raises, fall back to `sign_data_simple`
on the (by then normalized) arguments. -/
def generate_ethereum_signature (env : SignEnv) (biometric_hash user_address : List Char) :
    List Char :=
  match messageInput biometric_hash user_address, env.keyValid with
  | some buf, true => bytesToHex0x (env.ecdsaSign (keccak256 buf))
  | _, _ => sign_data_simple env (normalizeBiometricHash biometric_hash) (ensure0x user_address)

/-! ## Verification workflow (`verify.py` 369-675)

The per-stage analyzer outcomes are inputs to the workflow: they summarize
what the live capture streams produced during each challenge window
(`face_liveness` is the flag set by `_perform_face_liveness_challenge`;
`voice_match` and `lip_sync` are the flags set by `_perform_voice_challenge`). -/

/-- The stages a verification session can execute. -/
inductive Stage where
  | face : Stage
  | voice : Stage
  | fusion : Stage
deriving DecidableEq

/-- The three per-stage booleans recorded in `self.verification_results`. -/
structure StageInputs where
  face_liveness : Bool
  voice_match : Bool
  lip_sync : Bool
deriving DecidableEq

/-- One row of the `verification_logs` table written by
`DatabaseManager.log_verification` (`utils.py` 509-522). -/
structure SessionLog where
  face_liveness : Bool
  voice_match : Bool
  lip_sync : Bool
  overall_result : Bool
  hash_value : List Char
  signature : List Char
deriving DecidableEq

/-- What a run of `_verification_workflow` produces: the stages that actually
executed, the session verdict, and the persisted log row. -/
structure VerificationOutcome where
  stages : List Stage
  overall : Bool
  log : SessionLog
deriving DecidableEq

/-- Lines 552-557 of `verify.py`: `all_passed`. -/
def all_passed (i : StageInputs) : Bool :=
  i.face_liveness && i.voice_match && i.lip_sync

/-- Lines 369-397 together with 549-675 of `verify.py`: the workflow runs the
face stage and, when it fails, calls `_verification_failed` and returns; then
the voice stage likewise; otherwise `_perform_final_verification` computes the
hash, signs it and logs the passing row. `verification_data` is the formatted
string of line 563 and `wallet` is `self.wallet_address`. -/
def runWorkflow (i : StageInputs) (env : SignEnv) (verification_data wallet : List Char) :
    VerificationOutcome :=
  if i.face_liveness = false then
    { stages := [Stage.face], overall := false,
      log := { face_liveness := false, voice_match := false, lip_sync := false,
               overall_result := false, hash_value := [], signature := [] } }
  else if (i.voice_match && i.lip_sync) = false then
    { stages := [Stage.face, Stage.voice], overall := false,
      log := { face_liveness := i.face_liveness, voice_match := i.voice_match,
               lip_sync := i.lip_sync, overall_result := false,
               hash_value := [], signature := [] } }
  else if all_passed i then
    let hash := env.sha256hex verification_data
    let sig := generate_ethereum_signature env hash wallet
    { stages := [Stage.face, Stage.voice, Stage.fusion], overall := true,
      log := { face_liveness := i.face_liveness, voice_match := i.voice_match,
               lip_sync := i.lip_sync, overall_result := true,
               hash_value := hash, signature := sig } }
  else
    { stages := [Stage.face, Stage.voice, Stage.fusion], overall := false,
      log := { face_liveness := i.face_liveness, voice_match := i.voice_match,
               lip_sync := i.lip_sync, overall_result := false,
               hash_value := [], signature := [] } }

/-! ## Voice-match stage (`verify.py` 488-501) -/

/-- Lines 495-498 of `verify.py`: the recorded audio and the enrolled
voiceprint are ignored; a uniformly random draw `voice_similarity` from
`[0.8, 0.95]` is compared against `Config.VOICE_SIMILARITY_THRESHOLD = 0.85`
with a strict greater-than. -/
def voice_match_stage (_recorded_audio _enrolled_voiceprint : List ℚ)
    (voice_similarity : ℚ) : Bool :=
  decide ((17 : ℚ) / 20 < voice_similarity)

/-! ## Lip-sync gate (`verify.py` 503-510) -/

/-- Whether the correlation analysis ran, and the recorded lip-sync flag. -/
structure LipSyncStage where
  ran_correlation : Bool
  passed : Bool
deriving DecidableEq

/-- Lines 503-510 of `verify.py`: `_analyze_lip_sync` (and with it the whole
audio/lip correlation computation, whose outcome is `correlation_passed`) runs
only when `len(self.lip_sequence) > 10`; otherwise the stage is recorded as
failed without running it. -/
def lip_sync_stage (lip_frames : Nat) (correlation_passed : Bool) : LipSyncStage :=
  if 10 < lip_frames then
    { ran_correlation := true, passed := correlation_passed }
  else
    { ran_correlation := false, passed := false }

/-! ## Blink debouncing (`verify.py` 336-342 and 424-427) -/

/-- The mutable blink state: `self.blink_count` and `self.last_blink_time`
(both reset to `0` before the challenge). -/
structure BlinkState where
  count : Nat
  last : ℚ
deriving DecidableEq

/-- Lines 336-342 of `verify.py`: on a frame whose average eye-aspect-ratio is
below the threshold at wall-clock time `t`, the counter increments only when
`t - last_blink_time > 0.5`. -/
def blinkStep (st : BlinkState) (t : ℚ) : BlinkState :=
  if 1 / 2 < t - st.last then { count := st.count + 1, last := t } else st

/-- The debounced count after a series of below-threshold frames at the given
wall-clock times. -/
def blinkCount (ts : List ℚ) : Nat :=
  (ts.foldl blinkStep { count := 0, last := 0 }).count

/-- Line 425 of `verify.py`: the blink challenge succeeds when
`self.blink_count >= 2`. -/
def blinkChallengePassed (count : Nat) : Bool :=
  decide (2 ≤ count)

/-! ## DTW alignment (`utils.py` 375-391, `LipSyncProcessor.dtw_alignment`)

The cost table holds rationals extended with `np.inf`. -/

/-- A rational extended with the `np.inf` used to initialize the DTW table. -/
inductive QInf where
  | inf : QInf
  | val : ℚ → QInf
deriving DecidableEq

/-- Adding a finite cost to a table cell, as numpy adds a float to `inf`. -/
def QInf.addCost (c : ℚ) : QInf → QInf
  | QInf.inf => QInf.inf
  | QInf.val q => QInf.val (c + q)

/-- Minimum of two table cells, as numpy's `min` treats `inf`. -/
def QInf.min2 : QInf → QInf → QInf
  | QInf.inf, b => b
  | QInf.val a, QInf.inf => QInf.val a
  | QInf.val a, QInf.val b => QInf.val (min a b)

/-- Lines 378-389 of `utils.py`: the `(n+1)×(m+1)` cost table, `inf`
everywhere except `(0,0) = 0`, with
`cell(i,j) = |a[i-1] - b[j-1]| + min(cell(i-1,j), cell(i,j-1), cell(i-1,j-1))`. -/
def dtwMatrix (a b : List ℚ) : Nat → Nat → QInf
  | 0, 0 => QInf.val 0
  | 0, _ + 1 => QInf.inf
  | _ + 1, 0 => QInf.inf
  | i + 1, j + 1 =>
    QInf.addCost |a.getD i 0 - b.getD j 0|
      (QInf.min2 (dtwMatrix a b i (j + 1))
        (QInf.min2 (dtwMatrix a b (i + 1) j) (dtwMatrix a b i j)))

/-- Line 391 of `utils.py`: the final cell normalized by `(n + m)`. -/
def dtw_alignment (seq1 seq2 : List ℚ) : QInf :=
  match dtwMatrix seq1 seq2 seq1.length seq2.length with
  | QInf.inf => QInf.inf
  | QInf.val q => QInf.val (q / ((seq1.length : ℚ) + (seq2.length : ℚ)))

/-- Nonnegativity of a table cell (`inf` counts as nonnegative). -/
def QInf.Nonneg : QInf → Prop
  | QInf.inf => True
  | QInf.val q => 0 ≤ q

/-! ## Concrete sample data used by witnesses and counterexamples -/

/-- A signing environment whose key loads and whose primitives return
fixed-shape outputs: 65 signature bytes and 64 hex digest characters. -/
def env0 : SignEnv :=
  { keyValid := true,
    ecdsaSign := fun _ => List.replicate 65 0,
    sha256hex := fun _ => List.replicate 64 '0' }

/-- A signing environment whose backend key fails to load. -/
def env1 : SignEnv :=
  { keyValid := false,
    ecdsaSign := fun _ => List.replicate 65 0,
    sha256hex := fun _ => List.replicate 64 '0' }

/-- The wallet address used by `test_ethereum_signatures.py`. -/
def ua0 : List Char := "0x1234567890123456789012345678901234567890".data

/-- A 32-byte biometric digest in `0x` + 64 hex character form. -/
def bh0 : List Char :=
  "0xa1b2c3d4e5f67890abcdef1234567890abcdef1234567890abcdef1234567890".data

/-- The 20 bytes of the wallet address `ua0`. -/
def addrBytes0 : List Nat :=
  [0x12, 0x34, 0x56, 0x78, 0x90, 0x12, 0x34, 0x56, 0x78, 0x90,
   0x12, 0x34, 0x56, 0x78, 0x90, 0x12, 0x34, 0x56, 0x78, 0x90]

/-- The 32 bytes of the digest `bh0`. -/
def digestBytes0 : List Nat :=
  [0xa1, 0xb2, 0xc3, 0xd4, 0xe5, 0xf6, 0x78, 0x90, 0xab, 0xcd, 0xef, 0x12,
   0x34, 0x56, 0x78, 0x90, 0xab, 0xcd, 0xef, 0x12, 0x34, 0x56, 0x78, 0x90,
   0xab, 0xcd, 0xef, 0x12, 0x34, 0x56, 0x78, 0x90]

/-- A biometric hash containing non-hex characters, on which `bytes.fromhex`
raises inside `generate_ethereum_signature`. -/
def badHash0 : List Char := ['z', 'z']

/-- A sample `verification_data` string (`verify.py` line 563). -/
def vd0 : List Char := "user:alice,timestamp:0".data

/-- A sample recorded-audio waveform. -/
def audio0 : List ℚ := [1 / 10, 2 / 10, 3 / 10]

/-- A sample enrolled voiceprint. -/
def voiceprint0 : List ℚ := [1, 0, 1]

/-! ## Helper lemmas -/

/-- Sanity check of the Keccak-256 embedding against the standard test
vector for the empty message. -/
theorem keccak256_empty_test_vector : keccak256 [] =
    [0xc5, 0xd2, 0x46, 0x01, 0x86, 0xf7, 0x23, 0x3c, 0x92, 0x7e, 0x7d, 0xb2, 0xdc, 0xc7,
     0x03, 0xc0, 0xe5, 0x00, 0xb6, 0x53, 0xca, 0x82, 0x27, 0x3b, 0x7b, 0xfa, 0xd8, 0x04,
     0x5d, 0x85, 0xa4, 0x70] := by decide

/-- Sanity check of the Keccak-256 embedding against the standard test
vector for the message `abc`. -/
theorem keccak256_abc_test_vector : keccak256 [0x61, 0x62, 0x63] =
    [0x4e, 0x03, 0x65, 0x7a, 0xea, 0x45, 0xa9, 0x4f, 0xc7, 0xd4, 0x7b, 0xa8, 0x26, 0xc8,
     0xd6, 0x67, 0xc0, 0xd1, 0xe6, 0xe3, 0x3a, 0x64, 0xa0, 0x36, 0xec, 0x44, 0xf5, 0x8f,
     0xa1, 0x2d, 0x6c, 0x45] := by decide

/-- Length of the `0x`-hex rendering of a byte string. -/
theorem bytesToHex0x_length (bs : List Nat) :
    (bytesToHex0x bs).length = 2 + 2 * bs.length := by
  have h : ((bs.map byteToHexChars).flatten).length = 2 * bs.length := by
    induction bs with
    | nil => simp
    | cons b rest ih => simp [byteToHexChars, ih]; omega
  simp [bytesToHex0x, h]
  omega

/-- The Ethereum signer never returns the empty string. -/
theorem generate_ethereum_signature_ne_nil (env : SignEnv) (bh ua : List Char) :
    generate_ethereum_signature env bh ua ≠ [] := by
  unfold generate_ethereum_signature
  cases hm : messageInput bh ua with
  | none => cases hk : env.keyValid <;> simp [sign_data_simple, bytesToHex0x, hk]
  | some buf => cases hk : env.keyValid <;> simp [sign_data_simple, bytesToHex0x, hk]

/-- The workflow verdict and the persisted `overall_result` both equal the
conjunction of the three stage booleans, whatever the signing environment. -/
theorem runWorkflow_overall (i : StageInputs) (env : SignEnv) (vd w : List Char) :
    (runWorkflow i env vd w).overall = (i.face_liveness && i.voice_match && i.lip_sync) ∧
    (runWorkflow i env vd w).log.overall_result =
      (i.face_liveness && i.voice_match && i.lip_sync) := by
  obtain ⟨f, v, l⟩ := i
  cases f <;> cases v <;> cases l <;> simp [runWorkflow, all_passed]

/-! ## Claims -/

/-- C1: the fused overall verdict equals the logical AND of the three stage
booleans `faceLiveness`, `voiceMatch` and `lipSync`; for all 8 combinations
the verdict (and the persisted `overall_result`) is true iff all three are
true, and no other component — in particular not the signing environment, the
verification data or the wallet — overrides this result. -/
theorem overall_verdict_is_and (i : StageInputs) (env : SignEnv) (vd w : List Char) :
    (runWorkflow i env vd w).overall = (i.face_liveness && i.voice_match && i.lip_sync) ∧
    (runWorkflow i env vd w).log.overall_result =
      (i.face_liveness && i.voice_match && i.lip_sync) :=
  runWorkflow_overall i env vd w

/-- C2: the voice-match stage of `verify.py` is not a deterministic function
of the recorded audio and the enrolled voiceprint: with the same audio and
voiceprint, two draws of the uniformly random `voice_similarity` inside the
code's own sampling interval `[0.8, 0.95]` yield different stage outcomes
(0.84 fails the strict `> 0.85` check, 0.90 passes it); no cosine similarity
against the enrolled voiceprint is computed. -/
theorem voice_match_not_deterministic :
    voice_match_stage audio0 voiceprint0 (21 / 25) = false ∧
    voice_match_stage audio0 voiceprint0 (9 / 10) = true ∧
    ((4 : ℚ) / 5 ≤ 21 / 25 ∧ (21 : ℚ) / 25 ≤ 19 / 20) ∧
    ((4 : ℚ) / 5 ≤ 9 / 10 ∧ (9 : ℚ) / 10 ≤ 19 / 20) := by
  constructor
  · simp [voice_match_stage]; norm_num
  constructor
  · simp [voice_match_stage]; norm_num
  constructor
  · constructor <;> norm_num
  · constructor <;> norm_num

/-- C5 counterexample: a session whose face-liveness challenge fails reaches
its terminal failed state having executed only the face stage — the voice
challenge is not run, contrary to the claim that scheduling proceeds to the
voice challenge anyway. -/
theorem face_failure_skips_voice :
    (runWorkflow ⟨false, true, true⟩ env0 vd0 ua0).stages = [Stage.face] ∧
    Stage.voice ∉ (runWorkflow ⟨false, true, true⟩ env0 vd0 ua0).stages ∧
    (runWorkflow ⟨false, true, true⟩ env0 vd0 ua0).overall = false := by
  refine ⟨by simp [runWorkflow], ?_, by simp [runWorkflow]⟩
  simp [runWorkflow]

/-- C5 amended: whenever the face-liveness stage fails (in particular on a
deadline that elapses without success), the workflow records the stage as
failed and terminates the session immediately with a failed verdict and an
empty-attestation log row; the voice challenge never runs. -/
theorem face_failure_terminates_session (i : StageInputs) (env : SignEnv)
    (vd w : List Char) (hface : i.face_liveness = false) :
    (runWorkflow i env vd w).stages = [Stage.face] ∧
    Stage.voice ∉ (runWorkflow i env vd w).stages ∧
    (runWorkflow i env vd w).overall = false ∧
    (runWorkflow i env vd w).log =
      { face_liveness := false, voice_match := false, lip_sync := false,
        overall_result := false, hash_value := [], signature := [] } := by
  refine ⟨by simp [runWorkflow, hface], ?_, by simp [runWorkflow, hface],
    by simp [runWorkflow, hface]⟩
  simp [runWorkflow, hface]

/-- C5 witness: the amended statement at a concrete failing face stage. -/
theorem face_failure_terminates_session_witness :
    (runWorkflow ⟨false, true, true⟩ env0 vd0 ua0).stages = [Stage.face] ∧
    Stage.voice ∉ (runWorkflow ⟨false, true, true⟩ env0 vd0 ua0).stages ∧
    (runWorkflow ⟨false, true, true⟩ env0 vd0 ua0).overall = false ∧
    (runWorkflow ⟨false, true, true⟩ env0 vd0 ua0).log =
      { face_liveness := false, voice_match := false, lip_sync := false,
        overall_result := false, hash_value := [], signature := [] } :=
  face_failure_terminates_session ⟨false, true, true⟩ env0 vd0 ua0 rfl

/-- C6 counterexample: with exactly 10 buffered lip frames — which is "at
least 10" — the lip-sync stage does not run the correlation computation and
is recorded as failed, because the code requires strictly more than 10. -/
theorem ten_lip_frames_skip_correlation :
    10 ≥ 10 ∧
    (lip_sync_stage 10 true).ran_correlation = false ∧
    (lip_sync_stage 10 true).passed = false := by
  refine ⟨le_refl 10, ?_, ?_⟩ <;> simp [lip_sync_stage]

/-- C6 amended: the lip-sync stage runs the audio/lip correlation computation
exactly when strictly more than 10 (that is, at least 11) lip frames were
buffered, in which case its result is the correlation check's outcome; with
10 or fewer frames it is an automatic failure without running correlation. -/
theorem lip_sync_gate (n : Nat) (b : Bool) :
    ((lip_sync_stage n b).ran_correlation = true ↔ 11 ≤ n) ∧
    (n ≤ 10 → lip_sync_stage n b =
      { ran_correlation := false, passed := false }) ∧
    (11 ≤ n → (lip_sync_stage n b).passed = b) := by
  unfold lip_sync_stage
  by_cases h : 10 < n <;> simp [h] <;> omega

/-- C6 witness: the amended gate at 11 frames (correlation runs, result is the
correlation outcome) and at 10 frames (automatic failure). -/
theorem lip_sync_gate_witness :
    (((lip_sync_stage 11 true).ran_correlation = true ↔ 11 ≤ 11) ∧
      (11 ≤ 10 → lip_sync_stage 11 true =
        { ran_correlation := false, passed := false }) ∧
      (11 ≤ 11 → (lip_sync_stage 11 true).passed = true)) ∧
    (((lip_sync_stage 10 true).ran_correlation = true ↔ 11 ≤ 10) ∧
      (10 ≤ 10 → lip_sync_stage 10 true =
        { ran_correlation := false, passed := false }) ∧
      (11 ≤ 10 → (lip_sync_stage 10 true).passed = true)) :=
  ⟨lip_sync_gate 11 true, lip_sync_gate 10 true⟩

/-- C7: a below-threshold frame increments the blink counter only when at
least (indeed strictly more than) 0.5 seconds elapsed since the previous
counted blink; for threshold crossings at wall-clock times `t0`, `t0 + 0.3s`
and `t0 + 0.6s` the debounced counter reaches exactly 2, and with that count
the blink challenge passes.  (`t0 > 0.5` holds for any real session because
`last_blink_time` is initialized to the epoch sentinel `0` while
`time.time()` is large.) -/
theorem blink_debounce_scenario (t0 : ℚ) (h : 1 / 2 < t0) :
    blinkCount [t0, t0 + 3 / 10, t0 + 3 / 5] = 2 ∧
    blinkChallengePassed (blinkCount [t0, t0 + 3 / 10, t0 + 3 / 5]) = true ∧
    (∀ (st : BlinkState) (t : ℚ),
      (blinkStep st t).count ≠ st.count → 1 / 2 ≤ t - st.last) := by
  have s1 : blinkStep { count := 0, last := 0 } t0 = { count := 1, last := t0 } := by
    unfold blinkStep
    rw [if_pos]
    simpa using h
  have s2 : blinkStep { count := 1, last := t0 } (t0 + 3 / 10) =
      { count := 1, last := t0 } := by
    unfold blinkStep
    rw [if_neg]
    simp only [add_sub_cancel_left]
    norm_num
  have s3 : blinkStep { count := 1, last := t0 } (t0 + 3 / 5) =
      { count := 2, last := t0 + 3 / 5 } := by
    unfold blinkStep
    rw [if_pos]
    simp only [add_sub_cancel_left]
    norm_num
  have hcount : blinkCount [t0, t0 + 3 / 10, t0 + 3 / 5] = 2 := by
    simp [blinkCount, List.foldl, s1, s2, s3]
  refine ⟨hcount, by simp [hcount, blinkChallengePassed], ?_⟩
  intro st t hne
  unfold blinkStep at hne
  by_cases hc : (1 : ℚ) / 2 < t - st.last
  · linarith
  · rw [if_neg hc] at hne
    exact absurd rfl hne

/-- C7 witness: the debounce scenario at the concrete start time `t0 = 1`. -/
theorem blink_debounce_scenario_witness :
    blinkCount [1, 1 + 3 / 10, 1 + 3 / 5] = 2 ∧
    blinkChallengePassed (blinkCount [1, 1 + 3 / 10, 1 + 3 / 5]) = true ∧
    (∀ (st : BlinkState) (t : ℚ),
      (blinkStep st t).count ≠ st.count → 1 / 2 ≤ t - st.last) :=
  blink_debounce_scenario 1 (by norm_num)

/-- C3: an attestation (non-empty hash and signature in the persisted row)
exists if and only if the session verdict passes all three stages; every
failing session is persisted with `overall_result = false` and empty-string
`hash_value` and `signature`.  The hypothesis records that
`hashlib.sha256(...).hexdigest()` always yields 64 characters. -/
theorem attestation_iff_pass (i : StageInputs) (env : SignEnv) (vd w : List Char)
    (hsha : ∀ s, (env.sha256hex s).length = 64) :
    (((runWorkflow i env vd w).log.hash_value ≠ [] ∧
      (runWorkflow i env vd w).log.signature ≠ []) ↔
      (i.face_liveness && i.voice_match && i.lip_sync) = true) ∧
    ((i.face_liveness && i.voice_match && i.lip_sync) = false →
      (runWorkflow i env vd w).log.overall_result = false ∧
      (runWorkflow i env vd w).log.hash_value = [] ∧
      (runWorkflow i env vd w).log.signature = []) := by
  obtain ⟨f, v, l⟩ := i
  have hhash : env.sha256hex vd ≠ [] := by
    intro hnil
    have h64 := hsha vd
    rw [hnil] at h64
    simp at h64
  have hsig := generate_ethereum_signature_ne_nil env (env.sha256hex vd) w
  cases f <;> cases v <;> cases l <;>
    simp [runWorkflow, all_passed, hhash, hsig]

/-- C3 witness: the attestation characterization at a passing session with a
concrete signing environment. -/
theorem attestation_iff_pass_witness :
    (((runWorkflow ⟨true, true, true⟩ env0 vd0 ua0).log.hash_value ≠ [] ∧
      (runWorkflow ⟨true, true, true⟩ env0 vd0 ua0).log.signature ≠ []) ↔
      (true && true && true) = true) ∧
    ((true && true && true) = false →
      (runWorkflow ⟨true, true, true⟩ env0 vd0 ua0).log.overall_result = false ∧
      (runWorkflow ⟨true, true, true⟩ env0 vd0 ua0).log.hash_value = [] ∧
      (runWorkflow ⟨true, true, true⟩ env0 vd0 ua0).log.signature = []) :=
  attestation_iff_pass ⟨true, true, true⟩ env0 vd0 ua0 (fun _ => by simp [env0])

/-- C8 counterexample: when Ethereum signing fails on a non-hex biometric hash
while the backend key still loads, the fallback `sign_data_simple` signature
is a 132-character `0x`-hex string — exactly the length and format of the
on-chain-verifiable signature produced on the success path, so the fallback is
not distinguished from it by length/format. -/
theorem fallback_signature_same_shape :
    messageInput badHash0 ua0 = none ∧
    (generate_ethereum_signature env0 badHash0 ua0).length = 132 ∧
    (messageInput bh0 ua0).isSome = true ∧
    (generate_ethereum_signature env0 bh0 ua0).length = 132 := by
  decide

/-- C8 amended: when Ethereum signing fails with a loadable key, the caller
falls back to `sign_data_simple`, which returns a standard 65-byte EIP-191
signature with the same 132-character `0x`-hex length/format as the
on-chain-verifiable signature (distinguished only by the message it signs);
only when the key itself cannot be loaded is the fallback the 66-character
`0x`+SHA-256 string, which is distinguished by its length.  The verification
verdict is unaffected by the signing environment. -/
theorem signature_fallback_lengths (env : SignEnv) (bh ua : List Char)
    (hsig : ∀ m, (env.ecdsaSign m).length = 65)
    (hsha : ∀ s, (env.sha256hex s).length = 64) :
    (env.keyValid = false → (generate_ethereum_signature env bh ua).length = 66) ∧
    (env.keyValid = true → (generate_ethereum_signature env bh ua).length = 132) ∧
    (∀ (i : StageInputs) (vd w : List Char),
      (runWorkflow i env vd w).overall =
        (i.face_liveness && i.voice_match && i.lip_sync)) := by
  refine ⟨?_, ?_, fun i vd w => (runWorkflow_overall i env vd w).1⟩
  · intro hk
    cases hm : messageInput bh ua <;>
      simp [generate_ethereum_signature, hm, hk, sign_data_simple, hsha]
  · intro hk
    cases hm : messageInput bh ua <;>
      simp [generate_ethereum_signature, hm, hk, sign_data_simple,
        bytesToHex0x_length, hsig]

/-- C8 witness: the length characterization at a loadable key (132 characters
on both the success and the fallback path) and at a failing key (66-character
hash fallback). -/
theorem signature_fallback_lengths_witness :
    ((env0.keyValid = false →
        (generate_ethereum_signature env0 bh0 ua0).length = 66) ∧
      (env0.keyValid = true →
        (generate_ethereum_signature env0 bh0 ua0).length = 132) ∧
      (∀ (i : StageInputs) (vd w : List Char),
        (runWorkflow i env0 vd w).overall =
          (i.face_liveness && i.voice_match && i.lip_sync))) ∧
    ((env1.keyValid = false →
        (generate_ethereum_signature env1 badHash0 ua0).length = 66) ∧
      (env1.keyValid = true →
        (generate_ethereum_signature env1 badHash0 ua0).length = 132) ∧
      (∀ (i : StageInputs) (vd w : List Char),
        (runWorkflow i env1 vd w).overall =
          (i.face_liveness && i.voice_match && i.lip_sync))) :=
  ⟨signature_fallback_lengths env0 bh0 ua0 (fun _ => by simp [env0])
      (fun _ => by simp [env0]),
    signature_fallback_lengths env1 badHash0 ua0 (fun _ => by simp [env1])
      (fun _ => by simp [env1])⟩

/-- Adding a nonnegative cost preserves nonnegativity of a DTW cell. -/
theorem qinf_addCost_nonneg (c : ℚ) (hc : 0 ≤ c) (m : QInf) (hm : m.Nonneg) :
    (QInf.addCost c m).Nonneg := by
  cases m with
  | inf => simp [QInf.addCost, QInf.Nonneg]
  | val q =>
    simp [QInf.addCost, QInf.Nonneg] at *
    linarith

/-- The minimum of two nonnegative DTW cells is nonnegative. -/
theorem qinf_min2_nonneg (a b : QInf) (ha : a.Nonneg) (hb : b.Nonneg) :
    (QInf.min2 a b).Nonneg := by
  cases a with
  | inf => simpa [QInf.min2] using hb
  | val qa =>
    cases b with
    | inf => simpa [QInf.min2, QInf.Nonneg] using ha
    | val qb =>
      simp [QInf.min2, QInf.Nonneg] at *
      exact ⟨ha, hb⟩

/-- Taking the minimum with the zero cell yields the zero cell whenever the
other cell is nonnegative. -/
theorem qinf_min2_val_zero (x : QInf) (hx : x.Nonneg) :
    QInf.min2 x (QInf.val 0) = QInf.val 0 := by
  cases x with
  | inf => rfl
  | val q =>
    simp [QInf.min2, QInf.Nonneg] at *
    exact hx

/-- Every DTW table cell is nonnegative. -/
theorem dtwMatrix_nonneg (a b : List ℚ) : ∀ i j, (dtwMatrix a b i j).Nonneg := by
  intro i
  induction i with
  | zero =>
    intro j
    cases j with
    | zero => simp [dtwMatrix, QInf.Nonneg]
    | succ j => simp [dtwMatrix, QInf.Nonneg]
  | succ i ih =>
    intro j
    induction j with
    | zero => simp [dtwMatrix, QInf.Nonneg]
    | succ j ihj =>
      simp only [dtwMatrix]
      exact qinf_addCost_nonneg _ (abs_nonneg _) _
        (qinf_min2_nonneg _ _ (ih (j + 1)) (qinf_min2_nonneg _ _ ihj (ih j)))

/-- Along the diagonal of the self-comparison table, every cell is zero. -/
theorem dtwMatrix_diag_self (s : List ℚ) : ∀ i, dtwMatrix s s i i = QInf.val 0 := by
  intro i
  induction i with
  | zero => simp [dtwMatrix]
  | succ i ih =>
    simp only [dtwMatrix]
    rw [ih, qinf_min2_val_zero _ (dtwMatrix_nonneg s s (i + 1) i),
      qinf_min2_val_zero _ (dtwMatrix_nonneg s s i (i + 1))]
    simp [QInf.addCost]

/-- C9: for every non-empty sequence, the DTW alignment distance of the
sequence against itself — infinity-initialized table, absolute-difference
cost recurrence, final normalization by `(n + m)` — equals zero. -/
theorem dtw_self_distance_zero (s : List ℚ) (_hs : s ≠ []) :
    dtw_alignment s s = QInf.val 0 := by
  unfold dtw_alignment
  rw [dtwMatrix_diag_self s s.length]
  simp

/-- C9 witness: the DTW self-distance at a concrete non-empty sequence. -/
theorem dtw_self_distance_zero_witness :
    ([1, 2] : List ℚ) ≠ [] ∧ dtw_alignment [1, 2] [1, 2] = QInf.val 0 :=
  ⟨by decide, dtw_self_distance_zero [1, 2] (by decide)⟩

/-- Parsing succeeds on any even-length string of hex digits. -/
theorem bytesFromHex_isSome_of (l : List Char) (heven : l.length % 2 = 0)
    (hhex : ∀ c ∈ l, (hexVal c).isSome = true) :
    (bytesFromHex l).isSome = true := by
  have key : ∀ (n : Nat) (l : List Char), l.length ≤ n → l.length % 2 = 0 →
      (∀ c ∈ l, (hexVal c).isSome = true) → (bytesFromHex l).isSome = true := by
    intro n
    induction n with
    | zero =>
      intro l hl _ _
      have hnil : l = [] := List.eq_nil_of_length_eq_zero (Nat.le_zero.mp hl)
      subst hnil
      simp [bytesFromHex]
    | succ n ih =>
      intro l hl hev hhx
      rcases l with _ | ⟨c1, _ | ⟨c2, rest⟩⟩
      · simp [bytesFromHex]
      · simp at hev
      · have h1 := hhx c1 (by simp)
        have h2 := hhx c2 (by simp)
        have hr : (bytesFromHex rest).isSome = true := by
          refine ih rest ?_ ?_ ?_
          · simp at hl
            omega
          · simp at hev
            omega
          · intro c hc
            exact hhx c (by simp [hc])
        obtain ⟨hi, hhi⟩ := Option.isSome_iff_exists.mp h1
        obtain ⟨lo, hlo⟩ := Option.isSome_iff_exists.mp h2
        obtain ⟨bs, hbs⟩ := Option.isSome_iff_exists.mp hr
        simp [bytesFromHex, hhi, hlo, hbs]
  exact key l.length l le_rfl heven hhex

/-- C10: a biometric hash shorter than 64 hex characters (and without a `0x`
tag) is accepted rather than rejected: the `0x`-tagged string is right-padded
with ASCII `0` up to 66 characters, so the digest hex digits are the input
zero-extended on the right (not the left); parsing the padded digits succeeds,
and with a parseable address and loadable key the signature is computed over
the Keccak-256 hash of the buffer built from that padded value. -/
theorem short_hash_right_padded (h : List Char) (hpre : h.take 2 ≠ ['0', 'x'])
    (hlen : h.length < 64) (hhex : ∀ c ∈ h, (hexVal c).isSome = true) :
    normalizeBiometricHash h = '0' :: 'x' :: (h ++ List.replicate (64 - h.length) '0') ∧
    digestHexDigits h = h ++ List.replicate (64 - h.length) '0' ∧
    (bytesFromHex (digestHexDigits h)).isSome = true ∧
    (∀ (env : SignEnv) (ua : List Char), env.keyValid = true →
      (bytesFromHex (addressHexDigits ua)).isSome = true →
      ∃ buf, messageInput h ua = some buf ∧
        generate_ethereum_signature env h ua =
          bytesToHex0x (env.ecdsaSign (keccak256 buf))) := by
  have e0 : ensure0x h = '0' :: 'x' :: h := by
    simp [ensure0x, hpre]
  have hnorm : normalizeBiometricHash h =
      '0' :: 'x' :: (h ++ List.replicate (64 - h.length) '0') := by
    simp only [normalizeBiometricHash, ljustChars, e0, List.length_cons]
    have hA : 66 - (h.length + 1 + 1) = 64 - h.length := by omega
    rw [if_pos (by omega), if_pos (by omega), hA, List.cons_append, List.cons_append]
  have hdig : digestHexDigits h = h ++ List.replicate (64 - h.length) '0' := by
    unfold digestHexDigits rjustChars
    rw [hnorm]
    have hdrop : ('0' :: 'x' :: (h ++ List.replicate (64 - h.length) '0')).drop 2 =
        h ++ List.replicate (64 - h.length) '0' := rfl
    rw [hdrop, if_neg (by simp [List.length_append, List.length_replicate]; omega)]
  have hsome : (bytesFromHex (digestHexDigits h)).isSome = true := by
    rw [hdig]
    refine bytesFromHex_isSome_of _ ?_ ?_
    · simp [List.length_append, List.length_replicate]
      omega
    · intro c hc
      rcases List.mem_append.mp hc with hcl | hcr
      · exact hhex c hcl
      · have hc0 : c = '0' := List.eq_of_mem_replicate hcr
        subst hc0
        decide
  refine ⟨hnorm, hdig, hsome, ?_⟩
  intro env ua hk hua
  obtain ⟨ab, hab⟩ := Option.isSome_iff_exists.mp hua
  obtain ⟨db, hdb⟩ := Option.isSome_iff_exists.mp hsome
  refine ⟨rjustBytes ab 32 ++ db, ?_, ?_⟩
  · simp [messageInput, hab, hdb]
  · simp [generate_ethereum_signature, messageInput, hab, hdb, hk]

/-- C10 witness: the right-padding behaviour at the concrete 3-character
hash `abc`. -/
theorem short_hash_right_padded_witness :
    normalizeBiometricHash ['a', 'b', 'c'] =
      '0' :: 'x' :: (['a', 'b', 'c'] ++ List.replicate 61 '0') ∧
    digestHexDigits ['a', 'b', 'c'] = ['a', 'b', 'c'] ++ List.replicate 61 '0' ∧
    (bytesFromHex (digestHexDigits ['a', 'b', 'c'])).isSome = true ∧
    (∀ (env : SignEnv) (ua : List Char), env.keyValid = true →
      (bytesFromHex (addressHexDigits ua)).isSome = true →
      ∃ buf, messageInput ['a', 'b', 'c'] ua = some buf ∧
        generate_ethereum_signature env ['a', 'b', 'c'] ua =
          bytesToHex0x (env.ecdsaSign (keccak256 buf))) :=
  short_hash_right_padded ['a', 'b', 'c'] (by decide) (by decide) (by decide)

/-- C4: the attestation message hash is Keccak-256 of the 64-byte buffer that
left-pads the 20-byte wallet address to 32 bytes with zero bytes and appends
the 32-byte digest — but that value does not byte-for-byte match the external
verifier's `solidityKeccak256(["address", "bytes32"])` computation, which
hashes the 52-byte tightly packed buffer (20 address bytes directly followed
by the 32 digest bytes). -/
theorem message_hash_differs_from_packed_encoding :
    messageInput bh0 ua0 = some (List.replicate 12 0 ++ addrBytes0 ++ digestBytes0) ∧
    (List.replicate 12 0 ++ addrBytes0 ++ digestBytes0).length = 64 ∧
    messageHash bh0 ua0 ≠ some (solidityKeccakAddressBytes32 addrBytes0 digestBytes0) := by
  decide
